import Mathlib

/-!
Shallow embedding of `src/nest.py` (Domoticz-NEST-plugin): the credential
state machine of the `Nest` class, its retrying POST transport, the snapshot
parsing and the device commands.  Network effects are modelled by explicit oracles (one response per
outbound request) and every embedded operation returns, besides its Python
return value, the successor state and the list of network events it produced.
Machine time is modelled as an integer count of microseconds (the resolution of
Python `datetime`/`timedelta`); request bodies that the code sends but never
branches on are elided.
-/

namespace NestProof

/-- A generic JSON leaf value as found in bucket/`now` dictionaries.  The code
never computes with these values (no float arithmetic is performed on them); it
only moves them into result dictionaries, so an opaque sum suffices. -/
inductive PyVal where
  | str (s : String)
  | num (n : Int)
  | bool (b : Bool)
deriving DecidableEq, Repr

/-- Python exceptions that escape the embedded functions uncaught. -/
inductive PyError where
  | unboundLocal (name : String)
  | typeError
  | keyError
  | valueError
deriving DecidableEq, Repr

/-- One entry of a `where.<structure_id>` bucket `wheres` list. -/
structure WhereEntry where
  where_id : String
  name : String
deriving DecidableEq, Repr

/-- The `eco` sub-dictionary of a `device.<id>` bucket (`device['eco']`). -/
structure EcoObj where
  mode : Option String := none
deriving DecidableEq, Repr

/-- The `value` dictionary of a bucket.  Python stores these as dicts; a key
that may be absent is an `Option` field (`none` models a `KeyError` on
access).  Only the keys the code reads are represented.  `structureRef` is the
`'structure'` key of `link.*` buckets (renamed: `structure` is a Lean
keyword). -/
structure BucketValue where
  structureRef : Option String := none
  swarm : Option (List String) := none
  wheres : Option (List WhereEntry) := none
  name : Option String := none
  away : Option PyVal := none
  city : Option String := none
  country_code : Option String := none
  postal_code : Option String := none
  target_temperature : Option PyVal := none
  current_temperature : Option PyVal := none
  temperature_scale : Option PyVal := none
  current_humidity : Option PyVal := none
  eco : Option EcoObj := none
  hvac_heater_state : Option PyVal := none
  target_temperature_type : Option PyVal := none
  target_temperature_low : Option PyVal := none
  target_temperature_high : Option PyVal := none
  where_id : Option String := none
  auto_away : Option PyVal := none
deriving DecidableEq, Repr

/-- One bucket of the app-launch response (`object_key` plus `value`). -/
structure Bucket where
  objectKey : String
  value : BucketValue
deriving DecidableEq, Repr

/-- The stored snapshot `self._status`: its `updated_buckets` list. -/
structure Snapshot where
  updatedBuckets : List Bucket
deriving DecidableEq, Repr

/-- The mutable attributes of the `Nest` instance that the embedded methods
read or write (`__init__`, src/nest.py lines 51-71). -/
structure NestState where
  running : Bool := true
  refreshTime : Int := 1
  accessToken : Option String := none
  accessTokenType : Option String := none
  idToken : Option String := none
  nestUserId : Option String := none
  nestAccessToken : Option String := none
  transportUrl : Option String := none
  user : Option String := none
  cacheExpirationText : Option String := none
  cacheExpiration : Option Int := none
  status : Option Snapshot := none
  nestAccessError : Option String := none
  device_list : List String := []
  protect_list : List String := []
deriving DecidableEq, Repr

/-- Network events, in the order the code issues them.  `sleep500` records the
fixed `time.sleep(0.5)` back-off of the retry loop. -/
inductive NetEvent where
  | getBearer
  | post (url : String)
  | getWeather (url : String)
  | sleep500
deriving DecidableEq, Repr

/-- Outcome of one `requests.post` attempt: an HTTP status code, or a
`requests.exceptions.Timeout`. -/
inductive PostOutcome where
  | status (code : Nat)
  | timeout
deriving DecidableEq, Repr

/-- Python `timedelta.seconds` of a delta given in microseconds: the delta is
normalised to `(days, seconds, microseconds)` with `0 ≤ seconds < 86400`, so
the attribute is `(deltaUs mod 86400·10^6) / 10^6` (Python `%` on a positive
modulus is `Int.emod`).  Note this is NOT the total remaining seconds: it
discards whole days and is large for negative (expired) deltas. -/
def tdSecondsAttr (deltaUs : Int) : Int :=
  (deltaUs.emod 86400000000) / 1000000

/-- The lazy-refresh test of `GetNestCredentials` (line 215):
`(self._cache_expiration - current_time).seconds/60 > max(self._refresh_time, 5)`.
For an integer bound `m`, `seconds/60 > m` (true division) is exactly
`seconds > 60*m`. -/
def cacheStillValid (cacheExpiration : Option Int) (now : Int) (refreshTime : Int) : Bool :=
  match cacheExpiration with
  | none => false
  | some exp => tdSecondsAttr (exp - now) > 60 * max refreshTime 5

/-- The body of the retry loop of `PostMessageWithRetries` (lines 454-476).
`i` is the current loop index into the oracle, `remaining` the number of loop
iterations left (initially `retries`).  Returns the Python return value
(`some ()` for the 200 response object, `none` for `return None`), the
successor state and the events issued. -/
def postRetryLoop (url : String) (oracle : Nat → PostOutcome) (s : NestState)
    (i : Nat) (remaining : Nat) : Option Unit × NestState × List NetEvent :=
  match remaining with
  | 0 => (none, s, [])
  | r + 1 =>
    if ¬ s.running then (none, s, [])
    else
      match oracle i with
      | .status code =>
        if code = 200 then
          (some (), { s with nestAccessError := none }, [.post url])
        else
          let msg := "API response status code " ++ toString code
          let s1 := { s with nestAccessError := some msg }
          let s2 := if code = 401 then { s1 with cacheExpiration := none } else s1
          if code < 500 then
            (none, s2, [.post url])
          else
            let rest := postRetryLoop url oracle s2 (i + 1) r
            (rest.1, rest.2.1, .post url :: .sleep500 :: rest.2.2)
      | .timeout =>
        let s1 := { s with nestAccessError := some "Connection timeout" }
        let rest := postRetryLoop url oracle s1 (i + 1) r
        (rest.1, rest.2.1, .post url :: .sleep500 :: rest.2.2)

/-- `Nest.PostMessageWithRetries` (lines 443-476).  The `headers` argument
only changes the bytes on the wire, never the control flow, so it is elided.
The default attempt budget of the source is `retries=1`. -/
def postMessageWithRetries (s : NestState) (url : String) (oracle : Nat → PostOutcome)
    (retries : Nat := 1) : Option Unit × NestState × List NetEvent :=
  postRetryLoop url oracle s 0 retries

/-- Outcome of the bearer-exchange GET of
`_GetBearerTokenUsingGoogleCookiesIssue_token` (lines 102-139): a 200 response
whose JSON body carries the token triple, a 200 body with an error/detail
pair, a 200 body with neither (falls through to `return False` with the error
state untouched), an HTTP error status, a timeout, a connection error, or an
undecodable body. -/
inductive BearerOutcome where
  | tokens (accessToken tokenType idToken : String)
  | errorBody (error detail : String)
  | emptyBody
  | httpError (code : Nat)
  | timeout
  | connError
  | jsonError
deriving DecidableEq, Repr

/-- `Nest._GetBearerTokenUsingGoogleCookiesIssue_token` (lines 102-139). -/
def getBearerToken (s : NestState) (o : BearerOutcome) : Bool × NestState × List NetEvent :=
  if ¬ s.running then (false, s, [])
  else
    match o with
    | .tokens a t i =>
      (true, { s with accessToken := some a, accessTokenType := some t,
                      idToken := some i, nestAccessError := none }, [.getBearer])
    | .errorBody e d =>
      if e = "USER_LOGGED_OUT" then
        (false, { s with nestAccessError := some ("API returned error: " ++ d) }, [.getBearer])
      else
        let msg := "Invalid IssueToken/Cookie: " ++ e ++ " (" ++ d ++ ")"
        (false, { s with nestAccessError := some msg }, [.getBearer])
    | .emptyBody => (false, s, [.getBearer])
    | .httpError c =>
      let msg := "API request failed (status " ++ toString c ++ ")"
      (false, { s with nestAccessError := some msg }, [.getBearer])
    | .timeout => (false, { s with nestAccessError := some "API request timed out" }, [.getBearer])
    | .connError =>
      (false, { s with nestAccessError := some "Connection error API request" }, [.getBearer])
    | .jsonError => (false, { s with nestAccessError := some "Invalid API response" }, [.getBearer])

/-- JSON body (already decoded) of a successful `app_launch` call made by
`_GetUser`: the transport URL and the `object_key`s of `updated_buckets`. -/
structure UserBody where
  transportUrl : String
  bucketKeys : List String
deriving DecidableEq, Repr

/-- The oracle for one run of `GetNestCredentials`: the bearer-exchange
outcome, the per-attempt outcomes of the two retried POSTs, and the decoded
bodies of their 200 responses (`issueBody` is the triple
`(nestId, jwt, expirationTime)` read at lines 163-165; a malformed 200 body
would raise an uncaught `KeyError` in the source and is not modelled). -/
structure CredWorld where
  bearer : BearerOutcome
  issueAttempts : Nat → PostOutcome
  issueBody : String × String × String
  userAttempts : Nat → PostOutcome
  userBody : UserBody

/-- URL of the session-issue endpoint (line 145). -/
def jwtUrl : String := "https://nestauthproxyservice-pa.googleapis.com/v1/issue_jwt"

/-- URL of the per-user `app_launch` endpoint (lines 173, 248). -/
def appLaunchUrl (uid : String) : String :=
  "https://home.nest.com/api/0.1/user/" ++ uid ++ "/app_launch"

/-- `Nest._UseBearerTokenToGetAccessTokenAndUserId` (lines 141-167). -/
def useBearerToken (s : NestState) (w : CredWorld) : Bool × NestState × List NetEvent :=
  if ¬ s.running then (false, s, [])
  else
    let r := postMessageWithRetries s jwtUrl w.issueAttempts 2
    match r.1 with
    | none => (false, r.2.1, r.2.2)
    | some _ =>
      (true, { r.2.1 with nestUserId := some w.issueBody.1,
                          nestAccessToken := some w.issueBody.2.1,
                          cacheExpirationText := some w.issueBody.2.2 }, r.2.2)

/-- `Nest._GetUser` (lines 169-193).  The URL concatenates
`self._nest_user_id`, a `TypeError` if that attribute is still `None`.
`if not self._user` is Python falsiness: `None` or the empty string. -/
def getUser (s : NestState) (w : CredWorld) : Except PyError (Bool × NestState × List NetEvent) :=
  if ¬ s.running then .ok (false, s, [])
  else
    match s.nestUserId with
    | none => .error .typeError
    | some uid =>
      let r := postMessageWithRetries s (appLaunchUrl uid) w.userAttempts 2
      match r.1 with
      | none => .ok (false, r.2.1, r.2.2)
      | some _ =>
        let s2 := { r.2.1 with transportUrl := some w.userBody.transportUrl }
        let found := w.userBody.bucketKeys.find? (fun k => k.take 5 = "user.")
        let u1 := match found with
          | some k => some k
          | none => s2.user
        let u2 := match u1 with
          | none => some ("user." ++ uid)
          | some u => if u = "" then some ("user." ++ uid) else some u
        .ok (true, { s2 with user := u2 }, r.2.2)

/-- A Python `datetime` (naive), as produced by `datetime.strptime`. -/
structure PyDateTime where
  year : Nat
  month : Nat
  day : Nat
  hour : Nat
  minute : Nat
  second : Nat
  microsecond : Nat
deriving DecidableEq, Repr

/-- Value of a decimal digit character, `none` when the character is not a
digit. -/
def digitVal (c : Char) : Option Nat :=
  if c.isDigit then some (c.toNat - 48) else none

/-- Parse exactly `n` decimal digits into their value, returning the rest of
the input. -/
def parseFixed : Nat → List Char → Option (Nat × List Char)
  | 0, l => some (0, l)
  | _ + 1, [] => none
  | n + 1, c :: l => do
    let d ← digitVal c
    let (rest, l2) ← parseFixed n l
    return (d * 10 ^ n + rest, l2)

/-- Consume one expected literal character. -/
def expectChar (c : Char) : List Char → Option (List Char)
  | [] => none
  | x :: l => if x = c then some l else none

/-- Parse a `%f` field: one to six digits, right-padded with zeros to
microseconds (Python `_strptime` scales `int(ds) * 10^(6-len(ds))`). -/
def parseFrac (l : List Char) : Option (Nat × List Char) :=
  let ds := (l.takeWhile Char.isDigit).take 6
  if ds.length = 0 then none
  else
    let v := ds.foldl (fun acc c => acc * 10 + (c.toNat - 48)) 0
    some (v * 10 ^ (6 - ds.length), l.drop ds.length)

/-- The optional `.%f` field: a literal dot and one to six fraction digits
when the format carries fractional seconds, nothing (zero microseconds)
otherwise. -/
def parseFracPart : Bool → List Char → Option (Nat × List Char)
  | true, l =>
    match expectChar '.' l with
    | none => none
    | some l2 => parseFrac l2
  | false, l => some (0, l)

/-- Parse `'%Y-%m-%dT%H:%M:%S.%fZ'` (when `withFrac`) or `'%Y-%m-%dT%H:%M:%SZ'`
against a zero-padded canonical timestamp text, mirroring
`datetime.strptime` on the canonical vendor texts: the whole input must be consumed
and the fields must lie in the ranges the format accepts. -/
def parseCore (withFrac : Bool) (l : List Char) : Option PyDateTime :=
  match parseFixed 4 l with
  | none => none
  | some (y, r1) =>
  match expectChar '-' r1 with
  | none => none
  | some r2 =>
  match parseFixed 2 r2 with
  | none => none
  | some (mo, r3) =>
  match expectChar '-' r3 with
  | none => none
  | some r4 =>
  match parseFixed 2 r4 with
  | none => none
  | some (d, r5) =>
  match expectChar 'T' r5 with
  | none => none
  | some r6 =>
  match parseFixed 2 r6 with
  | none => none
  | some (h, r7) =>
  match expectChar ':' r7 with
  | none => none
  | some r8 =>
  match parseFixed 2 r8 with
  | none => none
  | some (mi, r9) =>
  match expectChar ':' r9 with
  | none => none
  | some r10 =>
  match parseFixed 2 r10 with
  | none => none
  | some (sec, r11) =>
  match parseFracPart withFrac r11 with
  | none => none
  | some (f, r12) =>
  match expectChar 'Z' r12 with
  | none => none
  | some r13 =>
  match r13 with
  | [] =>
    if 1 ≤ mo ∧ mo ≤ 12 ∧ 1 ≤ d ∧ d ≤ 31 ∧ h ≤ 23 ∧ mi ≤ 59 ∧ sec ≤ 61 then
      some ⟨y, mo, d, h, mi, sec, f⟩
    else none
  | _ :: _ => none

/-- The expiry-parsing step of `GetNestCredentials` (lines 226-230): the
format is chosen by whether the text contains a `'.'`. -/
def parseTimestamp (l : List Char) : Option PyDateTime :=
  if '.' ∈ l then parseCore true l else parseCore false l

/-- Days since 1970-01-01 of a proleptic-Gregorian civil date (the standard
`days_from_civil` algorithm; the `Int` division of Lean truncates toward zero as
the algorithm requires). -/
def daysFromCivil (y m d : Int) : Int :=
  let y2 := y - (if m ≤ 2 then 1 else 0)
  let era := (if 0 ≤ y2 then y2 else y2 - 399) / 400
  let yoe := y2 - era * 400
  let doy := (153 * (m + (if 2 < m then -3 else 9)) + 2) / 5 + d - 1
  let doe := yoe * 365 + yoe / 4 - yoe / 100 + doy
  era * 146097 + doe - 719468

/-- The absolute instant (microseconds since the epoch) denoted by a naive
datetime interpreted as UTC.  `pytz.utc.localize(naive).astimezone(local)`
(line 234) attaches UTC and converts the zone, which preserves this
instant. -/
def toEpochUs (t : PyDateTime) : Int :=
  (daysFromCivil t.year t.month t.day * 86400
    + t.hour * 3600 + t.minute * 60 + t.second) * 1000000 + t.microsecond

/-- The instant a raw expiry text denotes after the parse-and-localize step,
`none` when `strptime` would raise. -/
def expiryInstant (l : List Char) : Option Int :=
  (parseTimestamp l).map toEpochUs

/-- `Nest.GetNestCredentials` (lines 209-237).  `now` is the value of
`datetime.now(pytz.utc).astimezone(tzlocal.get_localzone())` in epoch
microseconds.  A `ValueError` of `strptime` (unparseable expiry text) is not
caught by the source (its `except` clause only handles `TypeError`) and
escapes; `'.' in None` would raise a `TypeError` inside the `try` whose
handler then calls `strptime` on `None` again, escaping too. -/
def getNestCredentials (s : NestState) (now : Int) (w : CredWorld) :
    Except PyError (Bool × NestState × List NetEvent) :=
  let s0 := { s with nestAccessError := none }
  if cacheStillValid s0.cacheExpiration now s0.refreshTime then .ok (true, s0, [])
  else
    let b := getBearerToken s0 w.bearer
    if ¬ b.1 then .ok (false, b.2.1, b.2.2)
    else
      let u := useBearerToken b.2.1 w
      if ¬ u.1 then .ok (false, u.2.1, b.2.2 ++ u.2.2)
      else
        match getUser u.2.1 w with
        | .error e => .error e
        | .ok g =>
          if ¬ g.1 then .ok (false, g.2.1, b.2.2 ++ u.2.2 ++ g.2.2)
          else
            match g.2.1.cacheExpirationText with
            | none => .error .typeError
            | some txt =>
              match parseTimestamp txt.toList with
              | none => .error .valueError
              | some dt =>
                .ok (true, { g.2.1 with cacheExpiration := some (toEpochUs dt) },
                  b.2.2 ++ u.2.2 ++ g.2.2)

/-- Python `str.split(sep)` on a list of characters (for a single-character
separator): always returns at least one piece. -/
def splitChar (sep : Char) : List Char → List (List Char)
  | [] => [[]]
  | c :: cs =>
    match splitChar sep cs with
    | [] => [[]]
    | h :: t => if c = sep then [] :: h :: t else (c :: h) :: t

/-- Python `s.split(sep)` for strings. -/
def pySplit (sep : Char) (s : String) : List String :=
  (splitChar sep s.toList).map (fun l => String.mk l)

/-- Evaluate a list of dictionary accesses as a Python list comprehension
does: any `KeyError` (a `none`) aborts the whole comprehension. -/
def seqOptions : List (Option α) → Option (List α)
  | [] => some []
  | none :: _ => none
  | some a :: rest => (seqOptions rest).map (fun l => a :: l)

/-- Python `dict[key]` where the dict was built by a comprehension: the LAST
binding of a repeated key wins. -/
def dictGet (l : List (String × String)) (k : String) : Option String :=
  (l.reverse.find? (fun p => p.1 = k)).map (fun p => p.2)

/-- Does the `object_key` of a bucket equal the given key? -/
def keyIs (k : String) (b : Bucket) : Bool := b.objectKey = k

/-- Does the `object_key` of a bucket split to `structure` before the first dot
(`bucket['object_key'].split('.')[0] == 'structure'`)? -/
def isStructureKey (b : Bucket) : Bool :=
  (pySplit '.' b.objectKey).head? = some "structure"

/-- The `structure_id` comprehension shared by `GetThermostatInformation`
(line 287) and `SetAway` (line 405):
`[bucket['value']['structure'][10:] for bucket in ... if bucket['object_key'] == 'link.<id>'][0]`.
`none` covers both the `KeyError` (a matching bucket without a `'structure'`
key) and the `IndexError` (no matching bucket). -/
def lookupStructureId (st : Snapshot) (device_id : String) : Option String := do
  let vals ← seqOptions
    (((st.updatedBuckets.filter (keyIs ("link." ++ device_id))).map (fun b => b.value.structureRef)))
  let v ← vals.head?
  return v.drop 10

/-- The view record built by `GetThermostatInformation` (lines 292-304). -/
structure ThermostatInfo where
  Target_temperature : PyVal
  Current_temperature : PyVal
  Temperature_scale : PyVal
  Humidity : PyVal
  Eco : Bool
  Heating : PyVal
  Target_mode : PyVal
  Target_temperature_low : PyVal
  Target_temperature_high : PyVal
  Where : String
  Auto_away : PyVal
deriving DecidableEq, Repr

/-- `Nest.GetThermostatInformation` (lines 284-308).  The whole body sits in a
bare `try/except: pass` around an initial `info = {}`, so every failure mode
(`self._status is None`, a missing bucket, a missing dictionary key) yields
the empty result `none`; the function never raises. -/
def getThermostatInformation (status : Option Snapshot) (device_id : String) :
    Option ThermostatInfo :=
  match status with
  | none => none
  | some st =>
    match lookupStructureId st device_id with
    | none => none
    | some sid =>
      match ((st.updatedBuckets.filter (keyIs ("shared." ++ device_id))).map
          (fun b => b.value)).head? with
      | none => none
      | some shared =>
        match ((st.updatedBuckets.filter (keyIs ("device." ++ device_id))).map
            (fun b => b.value)).head? with
        | none => none
        | some device =>
          match seqOptions ((st.updatedBuckets.filter (keyIs ("where." ++ sid))).map
              (fun b => b.value.wheres)) with
          | none => none
          | some whereLists =>
            let wheres := whereLists.flatten.map (fun w => (w.where_id, w.name))
            match device.eco, device.where_id with
            | some ecoObj, some wid =>
              match shared.target_temperature, shared.current_temperature,
                  device.temperature_scale, device.current_humidity, ecoObj.mode,
                  shared.hvac_heater_state, shared.target_temperature_type,
                  shared.target_temperature_low, shared.target_temperature_high,
                  dictGet wheres wid, shared.auto_away with
              | some tt, some ct, some ts, some hu, some ecoMode, some he, some tm,
                some tl, some th, some wn, some aa =>
                some ⟨tt, ct, ts, hu, ecoMode ≠ "schedule", he, tm, tl, th, wn, aa⟩
              | _, _, _, _, _, _, _, _, _, _, _ => none
            | _, _ => none

/-- The view record built by `GetNestInformation` (lines 337-343). -/
structure NestInfoRec where
  Name : String
  Away : PyVal
  City : String
  Country_code : String
  Postal_code : String
deriving DecidableEq, Repr

/-- `Nest.GetNestInformation` (lines 332-348): the value dictionary of the
first `structure.*` bucket, projected to five keys; any failure yields the
empty result. -/
def getNestInformation (status : Option Snapshot) : Option NestInfoRec :=
  match status with
  | none => none
  | some st =>
    match ((st.updatedBuckets.filter isStructureKey).map (fun b => b.value)).head? with
    | none => none
    | some struct =>
      match struct.name, struct.away, struct.city, struct.country_code, struct.postal_code with
      | some nm, some aw, some ci, some cc, some pc => some ⟨nm, aw, ci, cc, pc⟩
      | _, _, _, _, _ => none

/-- Decoded `now` sub-dictionary of a 200 forecast response
(`result['now']`); an absent key is `none`. -/
structure WeatherBody where
  current_humidity : Option PyVal := none
  current_temperature : Option PyVal := none
  current_wind : Option PyVal := none
  wind_direction : Option PyVal := none
deriving DecidableEq, Repr

/-- Outcome of the unauthenticated forecast GET (line 360). -/
inductive WeatherOutcome where
  | ok (body : WeatherBody)
  | httpError (code : Nat)
  | timeout
  | connError
  | jsonError
deriving DecidableEq, Repr

/-- The view record built by `GetOutsideTempHum` (lines 366-372). -/
structure WeatherInfo where
  City : String
  Current_humidity : PyVal
  Current_temperature : PyVal
  Current_wind : PyVal
  Wind_direction : PyVal
deriving DecidableEq, Repr

/-- Return value of `GetOutsideTempHum`: Python `False`, or the info dict
(possibly empty: `.info none`). -/
inductive WeatherRet where
  | fail
  | info (i : Option WeatherInfo)
deriving DecidableEq, Repr

/-- `Nest.GetOutsideTempHum` (lines 350-385).  The guard at line 355 reads
`if not ('Postal_code' in NestInfo and 'Country_code' in NestInfo) and (NestInfo['Postal_code'] == '' or NestInfo['Country_code'] == '')`.
When `GetNestInformation` produced a full view the left conjunct is `False`
and the guard never fires, even for blank codes, so the request is issued;
when it produced the empty dict the left conjunct is `True` and evaluating
`NestInfo['Postal_code']` raises an uncaught `KeyError` (the `try` starts only
at line 359). -/
def getOutsideTempHum (s : NestState) (w : WeatherOutcome) :
    Except PyError (WeatherRet × NestState × List NetEvent) :=
  if ¬ s.running then .ok (.fail, s, [])
  else
    match getNestInformation s.status with
    | none => .error .keyError
    | some info =>
      let url := "https://home.nest.com/api/0.1/weather/forecast/"
        ++ info.Postal_code ++ "," ++ info.Country_code
      match w with
      | .ok body =>
        let res : Option WeatherInfo :=
          match body.current_humidity, body.current_temperature,
              body.current_wind, body.wind_direction with
          | some hu, some te, some wi, some wd => some ⟨info.City, hu, te, wi, wd⟩
          | _, _, _, _ => none
        .ok (.info res, s, [.getWeather url])
      | .timeout =>
        .ok (.fail, { s with nestAccessError := some "API request timed out" }, [.getWeather url])
      | .connError =>
        let msg := "Connection error API request"
        .ok (.fail, { s with nestAccessError := some msg }, [.getWeather url])
      | .httpError c =>
        let msg := "API request failed (status " ++ toString c ++ ")"
        .ok (.fail, { s with nestAccessError := some msg }, [.getWeather url])
      | .jsonError =>
        .ok (.fail, { s with nestAccessError := some "Invalid API response" }, [.getWeather url])

/-- The swarm comprehension of `GetStatusUserBuckets` (line 265):
`[bucket['value']['swarm'] for bucket in ... if split[0] == 'structure'][0]`. -/
def swarmOfStatus (st : Snapshot) : Option (List String) := do
  let swarms ← seqOptions ((st.updatedBuckets.filter isStructureKey).map (fun b => b.value.swarm))
  swarms.head?

/-- `device.split('.')[1]`: the second piece, an `IndexError` (`none`) when
the key has no dot. -/
def pyIdx1 (s : String) : Option String := (pySplit '.' s).get? 1

/-- The id-extraction comprehensions of lines 267 and 269:
`[device.split('.')[1] for device in devices if device.split('.')[0] == typ]`. -/
def extractIds (typ : String) (devices : List String) : Option (List String) :=
  seqOptions ((devices.filter (fun d => (pySplit '.' d).head? = some typ)).map pyIdx1)

/-- Oracle for one `GetStatusUserBuckets` call: per-attempt POST outcomes and
the decoded snapshot body of a 200 response. -/
structure FetchWorld where
  attempts : Nat → PostOutcome
  body : Snapshot

/-- `Nest.GetStatusUserBuckets` (lines 239-273).  The URL concatenates
`self._nest_user_id` (a `TypeError` when still `None`).  The parsing `try`
block assigns `self.device_list` and `self.protect_list` sequentially; a
failure leaves the already-assigned prefix in place (`except: pass`). -/
def getStatusUserBuckets (s : NestState) (w : FetchWorld) :
    Except PyError (Bool × NestState × List NetEvent) :=
  if ¬ s.running then .ok (false, s, [])
  else
    match s.nestUserId with
    | none => .error .typeError
    | some uid =>
      let r := postMessageWithRetries s (appLaunchUrl uid) w.attempts 2
      match r.1 with
      | none => .ok (false, r.2.1, r.2.2)
      | some _ =>
        let s2 := { r.2.1 with status := some w.body }
        let s3 :=
          match swarmOfStatus w.body with
          | none => s2
          | some devices =>
            match extractIds "device" devices with
            | none => s2
            | some dl =>
              match extractIds "topaz" devices with
              | none => { s2 with device_list := dl }
              | some pl => { s2 with device_list := dl, protect_list := pl }
        .ok (true, s3, r.2.2)

/-- `Nest.UpdateNest` (lines 434-441).  Note: the `retries` parameter
(default 2) is accepted but never forwarded — the POST at line 436 is issued
with the default transport budget of 1 attempt. -/
def updateNest (s : NestState) (url : String) (now : Int) (w : CredWorld)
    (cmdOracle : Nat → PostOutcome) (retries : Nat := 2) :
    Except PyError (Bool × NestState × List NetEvent) := do
  let c ← getNestCredentials s now w
  if c.1 then
    let r := postMessageWithRetries c.2.1 url cmdOracle
    match r.1 with
    | none => return (false, r.2.1, c.2.2 ++ r.2.2)
    | some _ => return (true, r.2.1, c.2.2 ++ r.2.2)
  else
    return (false, c.2.1, c.2.2)

/-- `Nest.SetEco` (lines 422-432).  The request body (mode, timestamp,
`touched_by`) does not influence control flow and is elided. -/
def setEco (s : NestState) (device_id : String) (now : Int) (w : CredWorld)
    (cmdOracle : Nat → PostOutcome) :
    Except PyError (Bool × NestState × List NetEvent) :=
  match s.transportUrl with
  | none => .error .typeError
  | some tu => updateNest s (tu ++ "/v2/put/device." ++ device_id) now w cmdOracle

/-- `Nest.SetAway` (lines 403-420).  The `structure_id` lookup sits in a bare
`try/except: pass`; when it fails the local variable is left unbound and the
URL construction at line 408 raises: a `TypeError` first if
`self._transport_url` is `None` (the leftmost `+` is evaluated first),
otherwise an `UnboundLocalError` (a `NameError`) on loading `structure_id`.
Each of the two possible PUTs runs through `UpdateNest` with its own
credential world and command oracle; the return value of `SetEco` is discarded
(line 417). -/
def setAway (s : NestState) (device_id : String) (is_away : Bool) (eco_when_away : Bool)
    (now : Int) (w1 : CredWorld) (o1 : Nat → PostOutcome)
    (w2 : CredWorld) (o2 : Nat → PostOutcome) :
    Except PyError (Bool × NestState × List NetEvent) := do
  let sid? := match s.status with
    | none => none
    | some st => lookupStructureId st device_id
  match s.transportUrl with
  | none => .error .typeError
  | some tu =>
    match sid? with
    | none => .error (.unboundLocal "structure_id")
    | some sid =>
      let url := tu ++ "/v2/put/structure." ++ sid
      let u ← updateNest s url now w1 o1
      if u.1 then
        if is_away && eco_when_away then
          let e ← setEco u.2.1 device_id now w2 o2
          return (true, e.2.1, u.2.2 ++ e.2.2)
        else
          return (true, u.2.1, u.2.2)
      else
        return (false, u.2.1, u.2.2)

/-- Is a POST outcome one the retry loop retries (HTTP 5xx or a timeout)? -/
def serverErrOrTimeout : PostOutcome → Bool
  | .status c => 500 ≤ c
  | .timeout => true

/-- The Python return value of an embedded call, `none` when it raised. -/
def resultOf (r : Except PyError (Bool × NestState × List NetEvent)) : Option Bool :=
  match r with
  | .ok v => some v.1
  | .error _ => none

/-- The successor state of an embedded call, `none` when it raised. -/
def stateOf (r : Except PyError (Bool × NestState × List NetEvent)) : Option NestState :=
  match r with
  | .ok v => some v.2.1
  | .error _ => none

/-- The network events of an embedded call, `none` when it raised. -/
def traceOf (r : Except PyError (Bool × NestState × List NetEvent)) : Option (List NetEvent) :=
  match r with
  | .ok v => some v.2.2
  | .error _ => none

/-- A swarm member key `<type>.<id>` assembled from its two components. -/
def mkSwarmKey (p : String × String) : String :=
  String.mk (p.1.toList ++ '.' :: p.2.toList)

/-- The decimal digit character for `n < 10`. -/
def digitChar (n : Nat) : Char := Char.ofNat (48 + n)

/-- Two-digit zero-padded decimal rendering (`%m`, `%d`, `%H`, `%M`, `%S`). -/
def pad2 (n : Nat) : List Char := [digitChar (n / 10), digitChar (n % 10)]

/-- Four-digit zero-padded decimal rendering (`%Y`). -/
def pad4 (n : Nat) : List Char := pad2 (n / 100) ++ pad2 (n % 100)

/-- Suffix of the rendered expiry text: zero fractional seconds plus the
terminating `Z`, or the bare `Z`. -/
def fracSuffix : Bool → List Char
  | true => '.' :: ['0', '0', '0', '0', '0', '0', 'Z']
  | false => ['Z']

/-- The canonical expiry text the vendor emits for the given components, in
the two accepted formats: with zero fractional seconds (`...SS.000000Z`) when
`withFrac`, without them (`...SSZ`) otherwise. -/
def renderTs (y mo d h mi s : Nat) (withFrac : Bool) : List Char :=
  pad4 y ++ '-' :: (pad2 mo ++ '-' :: (pad2 d ++ 'T' :: (pad2 h ++ ':' ::
    (pad2 mi ++ ':' :: (pad2 s ++ fracSuffix withFrac)))))

/-- A network world whose every request fails; the lazy-refresh path never
consults it. -/
def dummyAttempts : Nat → PostOutcome := fun _ => PostOutcome.timeout

/-- A credential world whose every request fails. -/
def dummyCredWorld : CredWorld :=
  { bearer := .timeout, issueAttempts := dummyAttempts, issueBody := ("", "", ""),
    userAttempts := dummyAttempts, userBody := { transportUrl := "", bucketKeys := [] } }

/-- A credential world whose three calls all succeed. -/
def okCredWorld : CredWorld :=
  { bearer := .tokens "AT" "Bearer" "IDT"
    issueAttempts := fun _ => .status 200
    issueBody := ("U1", "JWT1", "2019-11-23T11:16:51.640Z")
    userAttempts := fun _ => .status 200
    userBody := { transportUrl := "https://transport.example", bucketKeys := ["user.U1"] } }

/-- An oracle answering every POST attempt with HTTP 200. -/
def ok200 : Nat → PostOutcome := fun _ => PostOutcome.status 200

/-- An oracle answering every POST attempt with HTTP 500. -/
def err500 : Nat → PostOutcome := fun _ => PostOutcome.status 500

/-- A freshly constructed session (all cache fields empty). -/
def sampleState : NestState := { running := true, refreshTime := 1 }

/-- A session whose cached expiry lies 60 seconds in the PAST. -/
def c1State : NestState :=
  { running := true, refreshTime := 1, cacheExpiration := some (-60000000) }

/-- A structure bucket value with a BLANK postal code. -/
def c3Value : BucketValue :=
  { name := some "Home"
    away := some (.bool false)
    city := some "Town"
    country_code := some "US"
    postal_code := some "" }

/-- A snapshot whose only bucket is the structure with a blank postal code. -/
def c3Snapshot : Snapshot :=
  { updatedBuckets := [{ objectKey := "structure.S1", value := c3Value }] }

/-- A session holding `c3Snapshot`. -/
def c3State : NestState := { running := true, refreshTime := 1, status := some c3Snapshot }

/-- A session with fresh cached credentials (expiry 600 s ahead of `now = 0`)
and a transport URL, holding a snapshot with a `link.D1` bucket. -/
def c6Value : BucketValue := { structureRef := some "structure.S1" }

/-- The snapshot for the away/eco command examples. -/
def c6Snapshot : Snapshot :=
  { updatedBuckets := [{ objectKey := "link.D1", value := c6Value }] }

/-- The session state for the command examples. -/
def c6State : NestState :=
  { running := true, refreshTime := 1, transportUrl := some "https://t"
    status := some c6Snapshot, cacheExpiration := some 600000000 }

/-- A structure bucket value with the three-member example swarm. -/
def c8Value : BucketValue := { swarm := some ["device.A", "topaz.B", "device.C"] }

/-- The snapshot holding the example swarm. -/
def c8Body : Snapshot :=
  { updatedBuckets := [{ objectKey := "structure.S1", value := c8Value }] }

/-- A fetch world delivering `c8Body` on a 200 response. -/
def c8World : FetchWorld := { attempts := ok200, body := c8Body }

/-- A session with a user id, ready to fetch a snapshot. -/
def c8State : NestState := { running := true, refreshTime := 1, nestUserId := some "U1" }

lemma mk_toList (s : String) : String.mk s.toList = s := by cases s; rfl

lemma splitChar_cons (sep c : Char) (cs : List Char) :
    splitChar sep (c :: cs)
      = match splitChar sep cs with
        | [] => [[]]
        | h :: t => if c = sep then [] :: h :: t else (c :: h) :: t := rfl

lemma splitChar_ne_nil (sep : Char) : ∀ l : List Char, splitChar sep l ≠ []
  | [] => by simp [splitChar]
  | c :: cs => by
    unfold splitChar
    cases h : splitChar sep cs with
    | nil => simp
    | cons a b => by_cases hc : c = sep <;> simp [hc]

lemma splitChar_not_mem (sep : Char) (l : List Char) (h : sep ∉ l) :
    splitChar sep l = [l] := by
  induction l with
  | nil => rfl
  | cons c cs ih =>
    have hc : ¬ (c = sep) := fun e => h (by simp [e])
    have h2 : sep ∉ cs := fun m => h (List.mem_cons_of_mem _ m)
    rw [splitChar_cons, ih h2]
    simp [hc]

lemma splitChar_append (sep : Char) (t r : List Char) (h : sep ∉ t) :
    splitChar sep (t ++ sep :: r) = t :: splitChar sep r := by
  induction t with
  | nil =>
    simp only [List.nil_append]
    rw [splitChar_cons]
    cases hr : splitChar sep r with
    | nil => exact absurd hr (splitChar_ne_nil sep r)
    | cons a b => simp [hr]
  | cons c cs ih =>
    have hc : ¬ (c = sep) := fun e => h (by simp [e])
    have h2 : sep ∉ cs := fun m => h (List.mem_cons_of_mem _ m)
    simp only [List.cons_append]
    rw [splitChar_cons, ih h2]
    simp [hc]

lemma pySplit_mkSwarmKey (p : String × String)
    (h1 : '.' ∉ p.1.toList) (h2 : '.' ∉ p.2.toList) :
    pySplit '.' (mkSwarmKey p) = [p.1, p.2] := by
  unfold pySplit mkSwarmKey
  have e : (String.mk (p.1.toList ++ '.' :: p.2.toList)).toList
      = p.1.toList ++ '.' :: p.2.toList := rfl
  rw [e, splitChar_append '.' _ _ h1, splitChar_not_mem '.' _ h2]
  simp [mk_toList]

lemma extractIds_map (typ : String) (members : List (String × String))
    (h : ∀ p ∈ members, '.' ∉ p.1.toList ∧ '.' ∉ p.2.toList) :
    extractIds typ (members.map mkSwarmKey)
      = some ((members.filter (fun p => p.1 = typ)).map (fun p => p.2)) := by
  induction members with
  | nil => simp [extractIds, seqOptions]
  | cons p rest ih =>
    obtain ⟨h1, h2⟩ := h p (List.mem_cons_self p rest)
    have hrest := fun q hq => h q (List.mem_cons_of_mem _ hq)
    have hsplit := pySplit_mkSwarmKey p h1 h2
    have ihr := ih hrest
    by_cases hp : p.1 = typ
    · simp only [extractIds, List.map_cons, List.filter_cons] at *
      simp [hsplit, hp, pyIdx1, seqOptions, ihr]
    · simp only [extractIds, List.map_cons, List.filter_cons] at *
      simp [hsplit, hp, pyIdx1, seqOptions, ihr]

lemma digitVal_digitChar (n : Nat) (h : n < 10) : digitVal (digitChar n) = some n := by
  interval_cases n <;> decide

lemma digitChar_ne_dot (n : Nat) (h : n < 10) : digitChar n ≠ '.' := by
  interval_cases n <;> decide

lemma dot_not_mem_pad2 (n : Nat) (h : n < 100) : '.' ∉ pad2 n := by
  have h1 : n / 10 < 10 := by omega
  have h2 : n % 10 < 10 := by omega
  simp [pad2]
  exact ⟨fun e => digitChar_ne_dot _ h1 e.symm, fun e => digitChar_ne_dot _ h2 e.symm⟩

lemma dot_not_mem_pad4 (n : Nat) (h : n < 10000) : '.' ∉ pad4 n := by
  have h1 : n / 100 < 100 := by omega
  have h2 : n % 100 < 100 := by omega
  simp [pad4]
  exact ⟨fun m => dot_not_mem_pad2 _ h1 m, fun m => dot_not_mem_pad2 _ h2 m⟩

lemma parseFixed_pad2 (n : Nat) (l : List Char) (h : n < 100) :
    parseFixed 2 (pad2 n ++ l) = some (n, l) := by
  have h1 : n / 10 < 10 := by omega
  have h2 : n % 10 < 10 := by omega
  simp [pad2, parseFixed, digitVal_digitChar _ h1, digitVal_digitChar _ h2]
  omega

lemma parseFixed_pad4 (n : Nat) (l : List Char) (h : n < 10000) :
    parseFixed 4 (pad4 n ++ l) = some (n, l) := by
  have h1 : n / 100 / 10 < 10 := by omega
  have h2 : n / 100 % 10 < 10 := by omega
  have h3 : n % 100 / 10 < 10 := by omega
  have h4 : n % 100 % 10 < 10 := by omega
  simp [pad4, pad2, parseFixed, digitVal_digitChar _ h1, digitVal_digitChar _ h2,
    digitVal_digitChar _ h3, digitVal_digitChar _ h4]
  omega

lemma expectChar_cons (c : Char) (l : List Char) : expectChar c (c :: l) = some l := by
  simp [expectChar]

lemma not_mem_append_cons {c sep : Char} {l1 l2 : List Char}
    (h1 : c ∉ l1) (hne : c ≠ sep) (h2 : c ∉ l2) : c ∉ l1 ++ sep :: l2 := by
  intro hm
  rcases List.mem_append.mp hm with h | h
  · exact h1 h
  · rcases List.mem_cons.mp h with h | h
    · exact hne h
    · exact h2 h

lemma mem_append_cons_of_mem {c sep : Char} {l1 l2 : List Char} (h : c ∈ l2) :
    c ∈ l1 ++ sep :: l2 :=
  List.mem_append_right _ (List.mem_cons_of_mem _ h)

lemma postRetryLoop_all_server (url : String) (oracle : Nat → PostOutcome) :
    ∀ (n i : Nat) (s : NestState), s.running = true →
    (∀ j, j < n → serverErrOrTimeout (oracle (i + j)) = true) →
    (postRetryLoop url oracle s i n).1 = none ∧
    (postRetryLoop url oracle s i n).2.2
      = List.flatten (List.replicate n [NetEvent.post url, NetEvent.sleep500]) := by
  intro n
  induction n with
  | zero => intro i s hrun _; simp [postRetryLoop]
  | succ m ih =>
    intro i s hrun hall
    have h0 : serverErrOrTimeout (oracle i) = true := by
      have := hall 0 (Nat.succ_pos m)
      simpa using this
    have hshift : ∀ j, j < m → serverErrOrTimeout (oracle (i + 1 + j)) = true := by
      intro j hj
      have := hall (j + 1) (by omega)
      have e : i + (j + 1) = i + 1 + j := by omega
      rwa [e] at this
    unfold postRetryLoop
    cases ho : oracle i with
    | timeout =>
      have hrun2 : ({ s with nestAccessError := some "Connection timeout" } : NestState).running
          = true := hrun
      have := ih (i + 1) _ hrun2 hshift
      simp only [hrun] at this
      simp [hrun, this.1, this.2, List.replicate_succ]
    | status c =>
      have hc : 500 ≤ c := by
        rw [ho] at h0
        simpa [serverErrOrTimeout] using h0
      have h200 : ¬ (c = 200) := by omega
      have h500 : ¬ (c < 500) := by omega
      have h401 : ¬ (c = 401) := by omega
      have hrun2 : ({ s with nestAccessError := some ("API response status code " ++ toString c) } : NestState).running = true := hrun
      have := ih (i + 1) _ hrun2 hshift
      simp only [hrun] at this
      simp [hrun, h200, h500, h401, this.1, this.2, List.replicate_succ]

lemma postRetryLoop_client_stop (url : String) (oracle : Nat → PostOutcome) :
    ∀ (k n i : Nat) (s : NestState), s.running = true → k < n →
    (∀ j, j < k → serverErrOrTimeout (oracle (i + j)) = true) →
    ∀ c, oracle (i + k) = .status c → c ≠ 200 → c < 500 →
    (postRetryLoop url oracle s i n).1 = none ∧
    (postRetryLoop url oracle s i n).2.2
      = List.flatten (List.replicate k [NetEvent.post url, NetEvent.sleep500])
        ++ [NetEvent.post url] := by
  intro k
  induction k with
  | zero =>
    intro n i s hrun hk _ c ho h200 h500
    cases n with
    | zero => omega
    | succ m =>
      have ho2 : oracle i = .status c := by simpa using ho
      unfold postRetryLoop
      simp [hrun, ho2, h200, h500]
  | succ q ih =>
    intro n i s hrun hk hall c ho h200 h500
    cases n with
    | zero => omega
    | succ m =>
      have h0 : serverErrOrTimeout (oracle i) = true := by
        have := hall 0 (Nat.succ_pos q)
        simpa using this
      have hshift : ∀ j, j < q → serverErrOrTimeout (oracle (i + 1 + j)) = true := by
        intro j hj
        have := hall (j + 1) (by omega)
        have e : i + (j + 1) = i + 1 + j := by omega
        rwa [e] at this
      have ho2 : oracle (i + 1 + q) = .status c := by
        have e : i + (q + 1) = i + 1 + q := by omega
        rwa [e] at ho
      unfold postRetryLoop
      cases hor : oracle i with
      | timeout =>
        have hrun2 : ({ s with nestAccessError := some "Connection timeout" } : NestState).running
            = true := hrun
        have := ih m (i + 1) _ hrun2 (by omega) hshift c ho2 h200 h500
        simp only [hrun] at this
        simp [hrun, this.1, this.2, List.replicate_succ]
      | status c2 =>
        have hc : 500 ≤ c2 := by
          rw [hor] at h0
          simpa [serverErrOrTimeout] using h0
        have h200b : ¬ (c2 = 200) := by omega
        have h500b : ¬ (c2 < 500) := by omega
        have h401b : ¬ (c2 = 401) := by omega
        have hrun2 : ({ s with nestAccessError := some ("API response status code " ++ toString c2) } : NestState).running = true := hrun
        have := ih m (i + 1) _ hrun2 (by omega) hshift c ho2 h200 h500
        simp only [hrun] at this
        simp [hrun, h200b, h500b, h401b, this.1, this.2, List.replicate_succ]

lemma postMessageWithRetries_one_200 (s : NestState) (url : String)
    (o : Nat → PostOutcome) (hrun : s.running = true) (h : o 0 = .status 200) :
    postMessageWithRetries s url o 1
      = (some (), { s with nestAccessError := none }, [.post url]) := by
  unfold postMessageWithRetries postRetryLoop
  simp [hrun, h]

lemma postMessageWithRetries_two_200 (s : NestState) (url : String)
    (o : Nat → PostOutcome) (hrun : s.running = true) (h : o 0 = .status 200) :
    postMessageWithRetries s url o 2
      = (some (), { s with nestAccessError := none }, [.post url]) := by
  unfold postMessageWithRetries postRetryLoop
  simp [hrun, h]

lemma postMessageWithRetries_first_401 (s : NestState) (url : String)
    (o : Nat → PostOutcome) (hrun : s.running = true) (h : o 0 = .status 401) :
    postMessageWithRetries s url o 1
      = (none, { s with nestAccessError := some ("API response status code " ++ toString 401),
                        cacheExpiration := none }, [.post url]) := by
  unfold postMessageWithRetries postRetryLoop
  simp [hrun, h]

lemma postMessageWithRetries_one_fail (s : NestState) (url : String)
    (o : Nat → PostOutcome) (hrun : s.running = true) (hfail : o 0 ≠ .status 200) :
    (postMessageWithRetries s url o 1).1 = none ∧
    ((postMessageWithRetries s url o 1).2.2 = [.post url] ∨
     (postMessageWithRetries s url o 1).2.2 = [.post url, .sleep500]) := by
  unfold postMessageWithRetries postRetryLoop
  cases ho : o 0 with
  | timeout => simp [hrun, ho, postRetryLoop]
  | status c =>
    have hc : ¬ (c = 200) := fun e => hfail (by rw [ho, e])
    by_cases h5 : c < 500
    · by_cases h4 : c = 401 <;> simp [hrun, ho, hc, h5, h4, postRetryLoop]
    · by_cases h4 : c = 401
      · omega
      · simp [hrun, ho, hc, h5, h4, postRetryLoop]

lemma postMessageWithRetries_one_server (s : NestState) (url : String)
    (o : Nat → PostOutcome) (hrun : s.running = true)
    (hfail : o 0 = .timeout ∨ ∃ c, o 0 = .status c ∧ 500 ≤ c) :
    ∃ s2, postMessageWithRetries s url o 1 = (none, s2, [.post url, .sleep500]) := by
  unfold postMessageWithRetries postRetryLoop
  rcases hfail with h | ⟨c, hc, h5⟩
  · simp [hrun, h, postRetryLoop]
  · have h200 : ¬ (c = 200) := by omega
    have h500 : ¬ (c < 500) := by omega
    have h401 : ¬ (c = 401) := by omega
    simp [hrun, hc, h200, h500, h401, postRetryLoop]

lemma getBearerToken_tokens (s : NestState) (a t i : String) (hrun : s.running = true) :
    getBearerToken s (.tokens a t i)
      = (true, { s with accessToken := some a, accessTokenType := some t,
                        idToken := some i, nestAccessError := none }, [.getBearer]) := by
  unfold getBearerToken
  simp [hrun]

lemma useBearerToken_ok (s : NestState) (w : CredWorld)
    (hrun : s.running = true) (hi : w.issueAttempts 0 = .status 200) :
    useBearerToken s w
      = (true, { s with nestAccessError := none, nestUserId := some w.issueBody.1,
                        nestAccessToken := some w.issueBody.2.1,
                        cacheExpirationText := some w.issueBody.2.2 }, [.post jwtUrl]) := by
  unfold useBearerToken
  rw [postMessageWithRetries_two_200 s jwtUrl w.issueAttempts hrun hi]
  simp [hrun]

lemma getUser_ok (s : NestState) (w : CredWorld) (uid : String)
    (hrun : s.running = true) (huid : s.nestUserId = some uid)
    (hu : w.userAttempts 0 = .status 200) :
    ∃ u2, getUser s w
      = .ok (true, { s with nestAccessError := none,
                            transportUrl := some w.userBody.transportUrl, user := u2 },
          [.post (appLaunchUrl uid)]) := by
  have hpost := postMessageWithRetries_two_200 s (appLaunchUrl uid) w.userAttempts hrun hu
  unfold getUser
  simp [huid, hrun, hpost]

lemma getNestCredentials_lazy (s : NestState) (now : Int) (w : CredWorld)
    (h : cacheStillValid s.cacheExpiration now s.refreshTime = true) :
    getNestCredentials s now w = .ok (true, { s with nestAccessError := none }, []) := by
  unfold getNestCredentials
  simp [h]

lemma getNestCredentials_full (s : NestState) (now : Int) (w : CredWorld)
    (a t i : String) (dt : PyDateTime)
    (hrun : s.running = true) (hcache : s.cacheExpiration = none)
    (hb : w.bearer = .tokens a t i)
    (hi : w.issueAttempts 0 = .status 200)
    (hu : w.userAttempts 0 = .status 200)
    (hp : parseTimestamp (w.issueBody.2.2).toList = some dt) :
    ∃ s2, getNestCredentials s now w
        = .ok (true, s2, [NetEvent.getBearer, NetEvent.post jwtUrl,
            NetEvent.post (appLaunchUrl w.issueBody.1)])
      ∧ s2.cacheExpiration = some (toEpochUs dt) := by
  unfold getNestCredentials getBearerToken useBearerToken getUser
    postMessageWithRetries postRetryLoop
  simp [cacheStillValid, hcache, hrun, hb, hi, hu, hp]
  simp only [String.toList] at hp
  rw [hp]
  exact ⟨_, rfl, rfl⟩

lemma exceptBind_ok {a b : Type} (x : a) (f : a → Except PyError b) :
    (Except.ok x >>= f : Except PyError b) = f x := rfl

lemma exceptPure {a : Type} (x : a) : (pure x : Except PyError a) = Except.ok x := rfl

lemma updateNest_lazy_200 (s : NestState) (url : String) (now : Int) (w : CredWorld)
    (o : Nat → PostOutcome) (r : Nat)
    (hrun : s.running = true)
    (hlazy : cacheStillValid s.cacheExpiration now s.refreshTime = true)
    (h200 : o 0 = .status 200) :
    updateNest s url now w o r
      = .ok (true, { s with nestAccessError := none }, [.post url]) := by
  unfold updateNest
  rw [getNestCredentials_lazy s now w hlazy]
  have hpost := postMessageWithRetries_one_200 ({ s with nestAccessError := none }) url o hrun h200
  simp [hpost, exceptBind_ok, exceptPure]

lemma updateNest_lazy_401 (s : NestState) (url : String) (now : Int) (w : CredWorld)
    (o : Nat → PostOutcome) (r : Nat)
    (hrun : s.running = true)
    (hlazy : cacheStillValid s.cacheExpiration now s.refreshTime = true)
    (h401 : o 0 = .status 401) :
    updateNest s url now w o r
      = .ok (false,
          { s with nestAccessError := some ("API response status code " ++ toString 401),
                   cacheExpiration := none }, [.post url]) := by
  unfold updateNest
  rw [getNestCredentials_lazy s now w hlazy]
  have hpost := postMessageWithRetries_first_401 ({ s with nestAccessError := none }) url o hrun h401
  simp [hpost, exceptBind_ok, exceptPure]

lemma updateNest_lazy_fail (s : NestState) (url : String) (now : Int) (w : CredWorld)
    (o : Nat → PostOutcome) (r : Nat)
    (hrun : s.running = true)
    (hlazy : cacheStillValid s.cacheExpiration now s.refreshTime = true)
    (hfail : o 0 ≠ .status 200) :
    ∃ s2 tr, updateNest s url now w o r = .ok (false, s2, tr) ∧
      (tr = [.post url] ∨ tr = [.post url, .sleep500]) := by
  unfold updateNest
  rw [getNestCredentials_lazy s now w hlazy]
  obtain ⟨h1, h2⟩ := postMessageWithRetries_one_fail ({ s with nestAccessError := none })
    url o hrun hfail
  simp [h1, exceptBind_ok, exceptPure]
  exact ⟨_, _, rfl, h2⟩

lemma setEco_lazy_200 (s : NestState) (did : String) (now : Int) (w : CredWorld)
    (o : Nat → PostOutcome) (tu : String)
    (hrun : s.running = true) (htu : s.transportUrl = some tu)
    (hlazy : cacheStillValid s.cacheExpiration now s.refreshTime = true)
    (h200 : o 0 = .status 200) :
    setEco s did now w o
      = .ok (true, { s with nestAccessError := none },
          [.post (tu ++ "/v2/put/device." ++ did)]) := by
  unfold setEco
  simp only [htu]
  rw [updateNest_lazy_200 s (tu ++ "/v2/put/device." ++ did) now w o 2 hrun hlazy h200, htu]

lemma setAway_both_200 (s : NestState) (st : Snapshot) (did tu sid : String) (now : Int)
    (w1 w2 : CredWorld) (o1 o2 : Nat → PostOutcome)
    (hrun : s.running = true) (htu : s.transportUrl = some tu) (hst : s.status = some st)
    (hsid : lookupStructureId st did = some sid)
    (hlazy : cacheStillValid s.cacheExpiration now s.refreshTime = true)
    (h1 : o1 0 = .status 200) (h2 : o2 0 = .status 200) :
    setAway s did true true now w1 o1 w2 o2
      = .ok (true, { s with nestAccessError := none },
          [NetEvent.post (tu ++ "/v2/put/structure." ++ sid),
           NetEvent.post (tu ++ "/v2/put/device." ++ did)]) := by
  have hup1 := updateNest_lazy_200 s (tu ++ "/v2/put/structure." ++ sid) now w1 o1 2
    hrun hlazy h1
  have heco := setEco_lazy_200 ({ s with nestAccessError := none }) did now w2 o2 tu
    hrun htu hlazy h2
  unfold setAway
  simp only [hst, htu, hsid]
  rw [hup1, exceptBind_ok]
  rw [heco, exceptBind_ok]
  simp [exceptPure]
  exact ⟨htu, hst⟩

/-- C1: code-bug evidence. With a cached expiry 60 seconds in the PAST
(remaining validity negative, hence NOT exceeding `max(refresh_margin, 5)`
minutes), `GetNestCredentials` still returns success with ZERO network calls:
the lazy test uses Python `timedelta.seconds`, which is `delta mod 1 day` and
is large for negative deltas, instead of the total remaining time. -/
theorem c1_getNestCredentials_lazy_on_expired_cache :
    getNestCredentials c1State 0 dummyCredWorld = .ok (true, c1State, []) ∧
    (-60000000 : Int) - 0 ≤ 60000000 * max 1 5 := by
  exact ⟨rfl, by decide⟩

/-- C2: `PostMessageWithRetries` with budget `n`: when every attempt yields
HTTP 5xx or a timeout, exactly `n` POSTs are issued with a 0.5 s sleep
between consecutive attempts and the call fails; when attempt `k` yields a
non-200 status below 500 after `k` retryable outcomes, the loop stops at
attempt `k + 1` and fails. -/
theorem c2_retry_policy (s : NestState) (url : String) (oracle : Nat → PostOutcome) (n : Nat)
    (hrun : s.running = true) :
    ((∀ i, i < n → serverErrOrTimeout (oracle i) = true) →
      (postMessageWithRetries s url oracle n).1 = none ∧
      (postMessageWithRetries s url oracle n).2.2
        = List.flatten (List.replicate n [NetEvent.post url, NetEvent.sleep500]))
    ∧ (∀ k c, k < n → (∀ i, i < k → serverErrOrTimeout (oracle i) = true) →
        oracle k = .status c → c ≠ 200 → c < 500 →
        (postMessageWithRetries s url oracle n).1 = none ∧
        (postMessageWithRetries s url oracle n).2.2
          = List.flatten (List.replicate k [NetEvent.post url, NetEvent.sleep500])
            ++ [NetEvent.post url]) := by
  constructor
  · intro hall
    have := postRetryLoop_all_server url oracle n 0 s hrun (by intro j hj; simpa using hall j hj)
    simpa [postMessageWithRetries] using this
  · intro k c hk hall ho h200 h500
    have := postRetryLoop_client_stop url oracle k n 0 s hrun hk
      (by intro j hj; simpa using hall j hj) c (by simpa using ho) h200 h500
    simpa [postMessageWithRetries] using this

/-- C2 witness: three attempts, all HTTP 500. -/
theorem c2_retry_policy_witness :
    sampleState.running = true ∧
    ((postMessageWithRetries sampleState "https://cmd" err500 3).1 = none ∧
     (postMessageWithRetries sampleState "https://cmd" err500 3).2.2
       = List.flatten (List.replicate 3 [NetEvent.post "https://cmd", NetEvent.sleep500])) :=
  ⟨rfl, (c2_retry_policy sampleState "https://cmd" err500 3 rfl).1 (fun _ _ => rfl)⟩

/-- C3: code-bug evidence. With a structure view whose postal code is blank
(`""`) and country code `"US"`, `GetOutsideTempHum` does NOT return early:
the guard `not (both keys present) and (either blank)` is false whenever the
view is complete, so the forecast request IS issued (here with a blank code in
the URL). -/
theorem c3_blank_postal_still_issues_request :
    (getNestInformation c3State.status).map NestInfoRec.Postal_code = some "" ∧
    getOutsideTempHum c3State .timeout
      = .ok (.fail, { c3State with nestAccessError := some "API request timed out" },
          [.getWeather "https://home.nest.com/api/0.1/weather/forecast/,US"]) := by
  exact ⟨rfl, rfl⟩

/-- C4: when the snapshot holds no `link.<device_id>` bucket, `SetAway`
reaches the command-URL construction with the local `structure_id` unbound
and raises (`UnboundLocalError`, a `NameError`) instead of failing the call
or no-opping cleanly. -/
theorem c4_setAway_unbound_structure_id (s : NestState) (st : Snapshot) (device_id tu : String)
    (is_away eco_when_away : Bool) (now : Int) (w1 w2 : CredWorld) (o1 o2 : Nat → PostOutcome)
    (hst : s.status = some st)
    (hlink : ∀ b ∈ st.updatedBuckets, b.objectKey ≠ "link." ++ device_id)
    (htu : s.transportUrl = some tu) :
    setAway s device_id is_away eco_when_away now w1 o1 w2 o2
      = .error (.unboundLocal "structure_id") := by
  have hfil : st.updatedBuckets.filter (keyIs ("link." ++ device_id)) = [] := by
    refine List.filter_eq_nil_iff.mpr ?_
    intro b hb
    simp [keyIs]
    exact hlink b hb
  have hsid : lookupStructureId st device_id = none := by
    unfold lookupStructureId
    simp [hfil, seqOptions]
  simp only [setAway, hst, htu, hsid]

/-- C4 witness: an empty snapshot has no `link.D1` bucket. -/
theorem c4_setAway_unbound_witness :
    (∀ b ∈ (Snapshot.mk []).updatedBuckets, b.objectKey ≠ "link." ++ "D1") ∧
    setAway { running := true, refreshTime := 1, status := some (Snapshot.mk []),
              transportUrl := some "https://t" } "D1" true true 0
        dummyCredWorld dummyAttempts dummyCredWorld dummyAttempts
      = .error (.unboundLocal "structure_id") := by
  refine ⟨by simp, ?_⟩
  exact c4_setAway_unbound_structure_id _ (Snapshot.mk []) "D1" "https://t" true true 0
    dummyCredWorld dummyCredWorld dummyAttempts dummyAttempts rfl (by simp) rfl

/-- C5: a command (`UpdateNest`) whose POST receives HTTP 401 fails, clears
the cached expiry as a side effect, and the next `GetNestCredentials` then
skips the lazy shortcut and performs the full re-exchange sequence — bearer
exchange, session issue, user resolve — in order. -/
theorem c5_401_clears_expiry_forces_full_reexchange
    (s : NestState) (url : String) (now : Int) (w1 w2 : CredWorld) (o : Nat → PostOutcome)
    (r : Nat) (a t i : String) (dt : PyDateTime)
    (hrun : s.running = true)
    (hlazy : cacheStillValid s.cacheExpiration now s.refreshTime = true)
    (h401 : o 0 = .status 401)
    (hb : w2.bearer = .tokens a t i) (hi : w2.issueAttempts 0 = .status 200)
    (hu : w2.userAttempts 0 = .status 200)
    (hp : parseTimestamp (w2.issueBody.2.2).toList = some dt) :
    ∃ sPost, updateNest s url now w1 o r = .ok (false, sPost, [NetEvent.post url])
      ∧ sPost.cacheExpiration = none
      ∧ ∃ s2, getNestCredentials sPost now w2
          = .ok (true, s2, [NetEvent.getBearer, NetEvent.post jwtUrl,
              NetEvent.post (appLaunchUrl w2.issueBody.1)]) := by
  have hup := updateNest_lazy_401 s url now w1 o r hrun hlazy h401
  refine ⟨_, hup, rfl, ?_⟩
  obtain ⟨s2, hg, _⟩ := getNestCredentials_full
    ({ s with nestAccessError := some ("API response status code " ++ toString 401),
              cacheExpiration := none }) now w2 a t i dt hrun rfl hb hi hu hp
  exact ⟨s2, hg⟩

/-- C5 witness: a command POST answered 401 against a session with fresh
cached credentials, then a successful re-exchange world. -/
theorem c5_401_witness :
    ∃ sPost, updateNest c6State "https://t/v2/put/shared.D1" 0 dummyCredWorld
        (fun _ => .status 401) 2
        = .ok (false, sPost, [NetEvent.post "https://t/v2/put/shared.D1"])
      ∧ sPost.cacheExpiration = none
      ∧ ∃ s2, getNestCredentials sPost 0 okCredWorld
          = .ok (true, s2, [NetEvent.getBearer, NetEvent.post jwtUrl,
              NetEvent.post (appLaunchUrl "U1")]) :=
  c5_401_clears_expiry_forces_full_reexchange c6State "https://t/v2/put/shared.D1" 0
    dummyCredWorld okCredWorld (fun _ => .status 401) 2 "AT" "Bearer" "IDT"
    ⟨2019, 11, 23, 11, 16, 51, 640000⟩ rfl (by decide) rfl rfl rfl rfl (by decide)

/-- C6: `SetAway(id, true, eco_when_away=true)` with valid cached credentials
issues exactly two distinct PUT-style POSTs in order — the structure away
update first, then the device eco update; when the first PUT fails (any
non-200 outcome), the eco PUT is never issued. -/
theorem c6_setAway_two_puts_in_order
    (s : NestState) (st : Snapshot) (did tu sid : String) (now : Int)
    (w1 w2 : CredWorld) (o1 o2 : Nat → PostOutcome)
    (hrun : s.running = true) (htu : s.transportUrl = some tu) (hst : s.status = some st)
    (hsid : lookupStructureId st did = some sid)
    (hlazy : cacheStillValid s.cacheExpiration now s.refreshTime = true) :
    (o1 0 = .status 200 → o2 0 = .status 200 →
      setAway s did true true now w1 o1 w2 o2
        = .ok (true, { s with nestAccessError := none },
            [NetEvent.post (tu ++ "/v2/put/structure." ++ sid),
             NetEvent.post (tu ++ "/v2/put/device." ++ did)]))
    ∧ (o1 0 ≠ .status 200 →
        resultOf (setAway s did true true now w1 o1 w2 o2) = some false ∧
        ∃ tr, traceOf (setAway s did true true now w1 o1 w2 o2) = some tr ∧
          NetEvent.post (tu ++ "/v2/put/device." ++ did) ∉ tr)
    ∧ tu ++ "/v2/put/structure." ++ sid ≠ tu ++ "/v2/put/device." ++ did := by
  have hne : tu ++ "/v2/put/structure." ++ sid ≠ tu ++ "/v2/put/device." ++ did := by
    intro h
    have h0 := congrArg String.data h
    simp only [String.data_append, List.append_assoc] at h0
    have h1 := List.append_cancel_left h0
    have h2 := congrArg (List.take 9) h1
    rw [List.take_append_of_le_length (by decide),
      List.take_append_of_le_length (by decide)] at h2
    exact absurd h2 (by decide)
  refine ⟨fun h1 h2 => setAway_both_200 s st did tu sid now w1 w2 o1 o2
    hrun htu hst hsid hlazy h1 h2, ?_, hne⟩
  intro hfail
  obtain ⟨s2, tr, hup, htr⟩ := updateNest_lazy_fail s (tu ++ "/v2/put/structure." ++ sid)
    now w1 o1 2 hrun hlazy hfail
  have hres : setAway s did true true now w1 o1 w2 o2 = .ok (false, s2, tr) := by
    unfold setAway
    simp only [hst, htu, hsid]
    rw [hup, exceptBind_ok]
    simp [exceptPure]
  have hx : ¬ (tu ++ "/v2/put/device." ++ did = tu ++ "/v2/put/structure." ++ sid) :=
    fun e => hne e.symm
  have hnotin : NetEvent.post (tu ++ "/v2/put/device." ++ did) ∉ tr := by
    rcases htr with h | h <;> rw [h] <;> simp [hx]
  refine ⟨?_, tr, ?_, hnotin⟩
  · rw [hres]
    rfl
  · rw [hres]
    rfl

/-- C6 witness: both PUTs answered 200 against the concrete session. -/
theorem c6_setAway_witness :
    setAway c6State "D1" true true 0 dummyCredWorld ok200 dummyCredWorld ok200
      = .ok (true, { c6State with nestAccessError := none },
          [NetEvent.post ("https://t" ++ "/v2/put/structure." ++ "S1"),
           NetEvent.post ("https://t" ++ "/v2/put/device." ++ "D1")])
    ∧ "https://t" ++ "/v2/put/structure." ++ "S1" ≠ "https://t" ++ "/v2/put/device." ++ "D1" := by
  have h := c6_setAway_two_puts_in_order c6State c6Snapshot "D1" "https://t" "S1" 0
    dummyCredWorld dummyCredWorld ok200 ok200 rfl rfl rfl (by decide) (by decide)
  exact ⟨h.1 rfl rfl, h.2.2⟩

/-- C7: a snapshot that lacks the `device.<id>` bucket makes
`GetThermostatInformation` return the empty view; the embedded function is
total, mirroring the blanket `try/except: pass`. -/
theorem c7_missing_device_bucket_gives_empty_view (st : Snapshot) (device_id : String)
    (h : ∀ b ∈ st.updatedBuckets, b.objectKey ≠ "device." ++ device_id) :
    getThermostatInformation (some st) device_id = none := by
  have hdev : st.updatedBuckets.filter (keyIs ("device." ++ device_id)) = [] := by
    refine List.filter_eq_nil_iff.mpr ?_
    intro b hb
    simp [keyIs]
    exact h b hb
  simp only [getThermostatInformation]
  cases h1 : lookupStructureId st device_id with
  | none => rfl
  | some sid =>
    cases h2 : ((st.updatedBuckets.filter (keyIs ("shared." ++ device_id))).map
        (fun b => b.value)).head? with
    | none => simp
    | some shared => simp [hdev]

/-- C7 witness: the empty snapshot lacks every bucket. -/
theorem c7_missing_device_witness :
    (∀ b ∈ (Snapshot.mk []).updatedBuckets, b.objectKey ≠ "device." ++ "D1") ∧
    getThermostatInformation (some (Snapshot.mk [])) "D1" = none := by
  refine ⟨by simp, ?_⟩
  exact c7_missing_device_bucket_gives_empty_view (Snapshot.mk []) "D1" (by simp)

/-- C8: `GetStatusUserBuckets` partitions the swarm of the first structure bucket
members by key prefix — `device.*` ids into `device_list`, `topaz.*` ids into
`protect_list` — preserving swarm order. -/
theorem c8_swarm_partition (s : NestState) (uid : String) (w : FetchWorld)
    (members : List (String × String))
    (hrun : s.running = true) (huid : s.nestUserId = some uid)
    (hatt : w.attempts 0 = .status 200)
    (hsw : swarmOfStatus w.body = some (members.map mkSwarmKey))
    (hdots : ∀ p ∈ members, '.' ∉ p.1.toList ∧ '.' ∉ p.2.toList) :
    resultOf (getStatusUserBuckets s w) = some true ∧
    traceOf (getStatusUserBuckets s w) = some [NetEvent.post (appLaunchUrl uid)] ∧
    (stateOf (getStatusUserBuckets s w)).map NestState.device_list
      = some ((members.filter (fun p => p.1 = "device")).map (fun p => p.2)) ∧
    (stateOf (getStatusUserBuckets s w)).map NestState.protect_list
      = some ((members.filter (fun p => p.1 = "topaz")).map (fun p => p.2)) := by
  have hpost := postMessageWithRetries_two_200 s (appLaunchUrl uid) w.attempts hrun hatt
  have hdev := extractIds_map "device" members hdots
  have htop := extractIds_map "topaz" members hdots
  unfold getStatusUserBuckets
  simp [hrun, huid, hpost, hsw, hdev, htop, resultOf, stateOf, traceOf]

/-- C8 witness: swarm `["device.A", "topaz.B", "device.C"]` yields thermostat
ids `[A, C]` and protect ids `[B]`, in order. -/
theorem c8_swarm_partition_witness :
    resultOf (getStatusUserBuckets c8State c8World) = some true ∧
    traceOf (getStatusUserBuckets c8State c8World) = some [NetEvent.post (appLaunchUrl "U1")] ∧
    (stateOf (getStatusUserBuckets c8State c8World)).map NestState.device_list
      = some ["A", "C"] ∧
    (stateOf (getStatusUserBuckets c8State c8World)).map NestState.protect_list
      = some ["B"] := by
  have := c8_swarm_partition c8State "U1" c8World
    [("device", "A"), ("topaz", "B"), ("device", "C")] rfl rfl rfl (by decide) (by decide)
  simpa using this

/-- C9: the two accepted expiry formats — with zero fractional seconds and
without — parse to the same naive datetime and hence to the same absolute
instant after the UTC-localize step. -/
theorem c9_expiry_formats_same_instant (y mo d h mi s : Nat)
    (hy : y ≤ 9999) (hmo1 : 1 ≤ mo) (hmo : mo ≤ 12) (hd1 : 1 ≤ d) (hd : d ≤ 31)
    (hh : h ≤ 23) (hmi : mi ≤ 59) (hs : s ≤ 59) :
    parseTimestamp (renderTs y mo d h mi s true) = some ⟨y, mo, d, h, mi, s, 0⟩ ∧
    parseTimestamp (renderTs y mo d h mi s false) = some ⟨y, mo, d, h, mi, s, 0⟩ ∧
    expiryInstant (renderTs y mo d h mi s true)
      = expiryInstant (renderTs y mo d h mi s false) := by
  have hdotT : '.' ∈ renderTs y mo d h mi s true := by
    simp only [renderTs, fracSuffix]
    exact mem_append_cons_of_mem (mem_append_cons_of_mem (mem_append_cons_of_mem
      (mem_append_cons_of_mem (mem_append_cons_of_mem
        (List.mem_append_right _ (List.mem_cons_self '.' _))))))
  have hdotF : '.' ∉ renderTs y mo d h mi s false := by
    simp only [renderTs, fracSuffix]
    exact not_mem_append_cons (dot_not_mem_pad4 y (by omega)) (by decide)
      (not_mem_append_cons (dot_not_mem_pad2 mo (by omega)) (by decide)
        (not_mem_append_cons (dot_not_mem_pad2 d (by omega)) (by decide)
          (not_mem_append_cons (dot_not_mem_pad2 h (by omega)) (by decide)
            (not_mem_append_cons (dot_not_mem_pad2 mi (by omega)) (by decide)
              (not_mem_append_cons (dot_not_mem_pad2 s (by omega)) (by decide)
                (List.not_mem_nil '.'))))))
  have hfrac : parseFrac ['0', '0', '0', '0', '0', '0', 'Z'] = some (0, ['Z']) := by decide
  have hcond : 1 ≤ mo ∧ mo ≤ 12 ∧ 1 ≤ d ∧ d ≤ 31 ∧ h ≤ 23 ∧ mi ≤ 59 ∧ s ≤ 61 :=
    ⟨hmo1, hmo, hd1, hd, hh, hmi, by omega⟩
  have hT : parseCore true (renderTs y mo d h mi s true) = some ⟨y, mo, d, h, mi, s, 0⟩ := by
    simp only [renderTs, fracSuffix, parseCore, parseFracPart,
      parseFixed_pad4 y _ (by omega : y < 10000),
      parseFixed_pad2 mo _ (by omega : mo < 100), parseFixed_pad2 d _ (by omega : d < 100),
      parseFixed_pad2 h _ (by omega : h < 100), parseFixed_pad2 mi _ (by omega : mi < 100),
      parseFixed_pad2 s _ (by omega : s < 100), expectChar_cons, hfrac]
    rw [if_pos hcond]
  have hF : parseCore false (renderTs y mo d h mi s false) = some ⟨y, mo, d, h, mi, s, 0⟩ := by
    simp only [renderTs, fracSuffix, parseCore, parseFracPart,
      parseFixed_pad4 y _ (by omega : y < 10000),
      parseFixed_pad2 mo _ (by omega : mo < 100), parseFixed_pad2 d _ (by omega : d < 100),
      parseFixed_pad2 h _ (by omega : h < 100), parseFixed_pad2 mi _ (by omega : mi < 100),
      parseFixed_pad2 s _ (by omega : s < 100), expectChar_cons]
    rw [if_pos hcond]
  refine ⟨?_, ?_, ?_⟩
  · rw [parseTimestamp, if_pos hdotT]
    exact hT
  · rw [parseTimestamp, if_neg hdotF]
    exact hF
  · rw [expiryInstant, expiryInstant, parseTimestamp, parseTimestamp,
      if_pos hdotT, if_neg hdotF, hT, hF]

/-- C9 witness: the vendor example timestamp with and without fractional
seconds. -/
theorem c9_expiry_witness :
    parseTimestamp (renderTs 2019 11 23 11 16 51 true) = some ⟨2019, 11, 23, 11, 16, 51, 0⟩ ∧
    parseTimestamp (renderTs 2019 11 23 11 16 51 false) = some ⟨2019, 11, 23, 11, 16, 51, 0⟩ ∧
    expiryInstant (renderTs 2019 11 23 11 16 51 true)
      = expiryInstant (renderTs 2019 11 23 11 16 51 false) :=
  c9_expiry_formats_same_instant 2019 11 23 11 16 51 (by decide) (by decide) (by decide)
    (by decide) (by decide) (by decide) (by decide) (by decide)

/-- C10: the `retries` argument of `UpdateNest` is never forwarded (the result
is independent of it), and the command POST runs with the default transport
budget of one attempt: a single 5xx or timeout makes the command fail with
exactly one POST issued. -/
theorem c10_updateNest_ignores_retries
    (s : NestState) (url : String) (now : Int) (w : CredWorld) (o : Nat → PostOutcome)
    (r1 r2 : Nat) (hrun : s.running = true)
    (hlazy : cacheStillValid s.cacheExpiration now s.refreshTime = true) :
    updateNest s url now w o r1 = updateNest s url now w o r2
    ∧ ((o 0 = .timeout ∨ ∃ c, o 0 = .status c ∧ 500 ≤ c) →
        ∃ s2, updateNest s url now w o r1
          = .ok (false, s2, [NetEvent.post url, NetEvent.sleep500])) := by
  constructor
  · rfl
  · intro hfail
    obtain ⟨s2, hp2⟩ := postMessageWithRetries_one_server ({ s with nestAccessError := none })
      url o hrun hfail
    unfold updateNest
    rw [getNestCredentials_lazy s now w hlazy]
    simp [hp2, exceptBind_ok, exceptPure]

/-- C10 witness: budgets 2 and 7 give the same result, and a 500 on the
single attempt fails the command after one POST. -/
theorem c10_updateNest_witness :
    updateNest c6State "https://t/v2/put/shared.D1" 0 dummyCredWorld err500 2
      = updateNest c6State "https://t/v2/put/shared.D1" 0 dummyCredWorld err500 7
    ∧ ∃ s2, updateNest c6State "https://t/v2/put/shared.D1" 0 dummyCredWorld err500 2
        = .ok (false, s2, [NetEvent.post "https://t/v2/put/shared.D1", NetEvent.sleep500]) := by
  have h := c10_updateNest_ignores_retries c6State "https://t/v2/put/shared.D1" 0
    dummyCredWorld err500 2 7 rfl (by decide)
  exact ⟨h.1, h.2 (Or.inr ⟨500, rfl, by decide⟩)⟩

end NestProof
